import Mathlib

/-!
Verification of the data validation and adaptive chart-scaling pipeline of
the repository, a shallow embedding of the three Python scripts
`plot_annual_books_userhome.py`, `plot_weekly_hours_userhome.py` and
`text_to_image_dalle.py`.

Modelling conventions:
* Python numeric values that flow through the validators are either `int`
  or `float`; the validators distinguish them with `isinstance`, so we embed
  them as the inductive type `PyVal`.  Python floats are modelled as exact
  rationals `ℚ` (every comparison performed by the scripts on the inputs of
  interest is unaffected by rounding).
* A Python function that can raise (and whose caller catches the exception
  and falls back) is embedded as an `Option`-returning function; `none`
  models the exception path.
* `print` side effects that the spec talks about are modelled by returning
  the list of messages emitted alongside the result.
-/

/-- A Python numeric value as seen by the validators: either an `int` or a
`float`.  The validators use `isinstance` checks, so the tag matters. -/
inductive PyVal where
  | int (n : ℤ)
  | float (q : ℚ)
deriving DecidableEq

/-- Split a character list on whitespace, accumulating the current token in
reverse; empty tokens are dropped, as Python `str.split()` does. -/
def splitWsAux : List Char → List Char → List (List Char)
  | [], cur => if cur.isEmpty then [] else [cur.reverse]
  | c :: rest, cur =>
      if c.isWhitespace then
        if cur.isEmpty then splitWsAux rest []
        else cur.reverse :: splitWsAux rest []
      else splitWsAux rest (c :: cur)

/-- Python `str.split()` with no argument: split on runs of whitespace and
drop empty tokens. -/
def pySplit (s : String) : List String :=
  (splitWsAux s.toList []).map (fun cs => String.mk cs)

/-- Numeric value of a list of decimal digit characters. -/
def natOfDigits (cs : List Char) : ℕ :=
  cs.foldl (fun a c => 10 * a + (c.toNat - 48)) 0

/-- Python `float(token)` on plain decimal literals (optional sign, digits,
optional fractional part).  Tokens outside this grammar make `float` raise,
modelled by `none`.  The resulting value is kept as an exact rational. -/
def pyFloat (s : String) : Option ℚ :=
  let cs := s.toList
  let signAndRest : ℚ × List Char :=
    match cs with
    | '-' :: rest => (-1, rest)
    | '+' :: rest => (1, rest)
    | _ => (1, cs)
  let sign := signAndRest.1
  let body := signAndRest.2
  let ip := body.takeWhile Char.isDigit
  let rest := body.dropWhile Char.isDigit
  match rest with
  | [] =>
      if ip.isEmpty then none
      else some (sign * (natOfDigits ip : ℚ))
  | '.' :: fp =>
      if fp.all Char.isDigit && !(ip.isEmpty && fp.isEmpty) then
        some (sign * ((natOfDigits ip : ℚ) +
          (natOfDigits fp : ℚ) / (10 : ℚ) ^ fp.length))
      else none
  | _ => none

/-- Python `int(x)` on a float: truncation toward zero. -/
def pyInt (q : ℚ) : ℤ :=
  if 0 ≤ q then ⌊q⌋ else ⌈q⌉

/-- Python `max` over a list (raises on the empty list, modelled by `none`). -/
def pyMaxI (l : List ℤ) : Option ℤ :=
  match l with
  | [] => none
  | x :: xs => some (xs.foldl max x)

/-- Python `min` over a list of floats. -/
def pyMinQ (l : List ℚ) : Option ℚ :=
  match l with
  | [] => none
  | x :: xs => some (xs.foldl min x)

/-- Python `max` over a list of floats. -/
def pyMaxQ (l : List ℚ) : Option ℚ :=
  match l with
  | [] => none
  | x :: xs => some (xs.foldl max x)

namespace AnnualBooks

/-- `get_yearly_data` from `plot_annual_books_userhome.py`: split the input
line, convert each token with `float`, and append `abs(int(books))` for each
value.  Any conversion error is caught and the function yields no data
(`none`). -/
def get_yearly_data (line : String) : Option (List ℤ) :=
  ((pySplit line).mapM pyFloat).map (fun qs => qs.map (fun q => |pyInt q|))

/-- The per-element test of `verify_yearly_data`:
`isinstance(books, int) and books >= 0`. -/
def monthlyElemOk (v : PyVal) : Bool :=
  match v with
  | .int n => decide (0 ≤ n)
  | .float _ => false

/-- Diagnostic printed by `verify_yearly_data` on a length mismatch. -/
def monthlyShapeMsg : String :=
  "The data list should have 12 elements, each corresponding sequentially to books read in a month."

/-- `verify_yearly_data` from `plot_annual_books_userhome.py`.  On a list of
length 12 a flag starts `False` and is set `True` by any element passing
`monthlyElemOk`; otherwise the shape diagnostic is printed and the result is
`False`.  Returns the verdict together with the printed messages. -/
def verify_yearly_data (yearly_data : List PyVal) : Bool × List String :=
  if yearly_data.length = 12 then
    (yearly_data.any monthlyElemOk, [])
  else
    (false, [monthlyShapeMsg])

/-- `calculate_ytick_interval` from `plot_annual_books_userhome.py`
(monthly scale). -/
def calculate_ytick_interval (max_value : ℚ) : ℤ :=
  if max_value ≤ 10 then 1
  else if max_value ≤ 50 then 5
  else if max_value ≤ 100 then 10
  else if max_value ≤ 500 then 50
  else 100

/-- `np.linspace(start, stop, num)`: `num` evenly spaced samples from
`start` to `stop`, endpoints included (exact in rational arithmetic). -/
def linspace (start stop : ℚ) (num : ℕ) : List ℚ :=
  if num = 1 then [start]
  else (List.range num).map
    (fun i => start + (stop - start) * (i : ℚ) / ((num : ℚ) - 1))

/-- `smooth_data` from `plot_annual_books_userhome.py`.  The call
`interp1d(x_axis, y_axis, kind="cubic")` builds an interpolating function
through the data points; that external function is abstracted as the
parameter `interp` (its documented contract — it interpolates the data — is
a hypothesis of the theorems about `smooth_data`).  The function samples
`num_points` evenly spaced x-values between `min(x_axis)` and `max(x_axis)`
and evaluates `interp` on them.  `min`/`max` raise on an empty axis,
modelled by `none`. -/
def smooth_data (interp : ℚ → ℚ) (x_axis : List ℚ) (num_points : ℕ) :
    Option (List ℚ × List ℚ) :=
  match pyMinQ x_axis, pyMaxQ x_axis with
  | some mn, some mx =>
      let x_smooth := linspace mn mx num_points
      some (x_smooth, x_smooth.map interp)
  | _, _ => none

/-- The y-axis limits set by `plot_books_per_month`
(`ax.set_ylim(0, max(books_read) + ytick_interval)` where
`ytick_interval = calculate_ytick_interval(max(books_read))`).  A list whose
length is not 12 raises `ValueError`, caught by the surrounding handler:
no plot, modelled by `none`. -/
def plot_books_per_month_ylim (books_read : List ℤ) : Option (ℚ × ℚ) :=
  if books_read.length = 12 then
    match pyMaxI books_read with
    | some m =>
        some (0, (m : ℚ) + (calculate_ytick_interval (m : ℚ) : ℚ))
    | none => none
  else none

end AnnualBooks

namespace WeeklyHours

/-- The per-element test of `verify_weekly_data`:
`isinstance(hours, float) and 0.0 < hours < 24.00`. -/
def weeklyElemOk (v : PyVal) : Bool :=
  match v with
  | .float q => decide (0 < q) && decide (q < 24)
  | .int _ => false

/-- Diagnostic printed by `verify_weekly_data` on a length mismatch. -/
def weeklyShapeMsg : String :=
  "The data list should have 7 elements, each corresponding sequentially to a day of the week."

/-- `verify_weekly_data` from `plot_weekly_hours_userhome.py`.  On a list of
length 7 a flag starts `False` and is set `True` by any element passing
`weeklyElemOk`; otherwise the shape diagnostic is printed and the result is
`False`. -/
def verify_weekly_data (weekly_data : List PyVal) : Bool × List String :=
  if weekly_data.length = 7 then
    (weekly_data.any weeklyElemOk, [])
  else
    (false, [weeklyShapeMsg])

/-- `calculate_ytick_interval` from `plot_weekly_hours_userhome.py`
(weekly scale). -/
def calculate_ytick_interval (max_value : ℚ) : ℤ :=
  if max_value ≤ 5 then 1
  else if max_value ≤ 10 then 2
  else if max_value ≤ 15 then 3
  else if max_value ≤ 20 then 4
  else if max_value ≤ 24 then 5
  else 8

end WeeklyHours

namespace TextToImage

/-- The length guard of `get_selected_text` in `text_to_image_dalle.py`:
the Python chained comparison `0 >= len(sel_text) > 600`, i.e.
`0 >= len(sel_text) and len(sel_text) > 600`. -/
def sel_text_len_invalid (s : String) : Bool :=
  decide (s.length ≤ 0) && decide (600 < s.length)

/-- `get_selected_text` from `text_to_image_dalle.py`, fed an explicit
stream of console inputs: read one line; if the length guard fires,
reprompt recursively on the rest of the stream; otherwise return the line.
An exhausted stream models the exception path (`none`). -/
def get_selected_text : List String → Option String
  | [] => none
  | s :: rest =>
      if sel_text_len_invalid s then get_selected_text rest else some s

end TextToImage

/-! Concrete example data used by the end-to-end scenarios of the spec. -/

/-- The console line of the end-to-end monthly scenario. -/
def monthlyInputLine : String := "1 2 3 4 5 6 7 8 9 10 11 12"

/-- The series the end-to-end monthly scenario expects to parse. -/
def monthlyParsed : List ℤ := [1, 2, 3, 4, 5, 6, 7, 8, 9, 10, 11, 12]

/-- The x-axis of the smoothing scenario: the months `[1..12]`. -/
def smooth_xs : List ℚ := [1, 2, 3, 4, 5, 6, 7, 8, 9, 10, 11, 12]

/-- The raw y-values of the smoothing scenario. -/
def smooth_ys : List ℚ := [3, 5, 2, 8, 6, 1, 9, 4, 7, 2, 5, 3]

/-- A concrete interpolating function through the points
`(smooth_xs, smooth_ys)`: table lookup with default `0` off the table.
Used to instantiate the abstract interpolant of `smooth_data`. -/
def interpTable (q : ℚ) : ℚ :=
  (((smooth_xs.zip smooth_ys).find? (fun p => decide (p.1 = q))).map
    Prod.snd).getD 0

/-- A 12-element list holding exactly one non-negative `int` among elements
that violate the per-element constraint (negative ints and floats). -/
def mixedMonthly : List PyVal :=
  [.int 5, .int (-3), .float (1/2), .int (-1), .float 3, .int (-2),
   .float (5/2), .int (-4), .float 0, .int (-5), .float 24, .int (-6)]

/-! Claims -/

unseal Rat.add Rat.mul Rat.inv Rat.sub in
/-- C1 (counterexample): on the end-to-end monthly input
"1 2 3 4 5 6 7 8 9 10 11 12" the parsed series is `[1..12]`, but the
y-axis upper bound handed to the renderer is not 13: `tickInterval(12)` is
5 (12 lies in the 10 < m ≤ 50 band), not 1. -/
theorem monthly_end_to_end_upper_bound_not_13 :
    AnnualBooks.get_yearly_data monthlyInputLine = some monthlyParsed ∧
    AnnualBooks.calculate_ytick_interval 12 = 5 ∧
    AnnualBooks.plot_books_per_month_ylim monthlyParsed ≠ some (0, 13) := by
  decide

unseal Rat.add Rat.mul Rat.inv Rat.sub in
/-- C1 (amended): end-to-end monthly run on input
"1 2 3 4 5 6 7 8 9 10 11 12": the parsed series is `[1..12]`, validation
returns true, and the renderer is invoked with y-axis upper bound
`12 + tickInterval(12) = 12 + 5 = 17` (per the general rule that the
monthly axis upper bound equals `max(data) + tickInterval`). -/
theorem monthly_end_to_end_pipeline :
    AnnualBooks.get_yearly_data monthlyInputLine = some monthlyParsed ∧
    AnnualBooks.verify_yearly_data (monthlyParsed.map PyVal.int) =
      (true, []) ∧
    AnnualBooks.plot_books_per_month_ylim monthlyParsed =
      some (0, 12 + 5) := by
  decide

/-- C2: the monthly validator accepts under an ANY-match policy: any
12-element list with at least one element passing the per-element check
(a non-negative `int`) is accepted, whatever the other elements are. -/
theorem monthly_validator_any_match (l : List PyVal) (h12 : l.length = 12)
    (hone : ∃ v ∈ l, AnnualBooks.monthlyElemOk v = true) :
    AnnualBooks.verify_yearly_data l = (true, []) := by
  have hany : l.any AnnualBooks.monthlyElemOk = true :=
    List.any_eq_true.mpr hone
  simp [AnnualBooks.verify_yearly_data, h12, hany]

/-- C2 (witness): a 12-element list with a single non-negative int among
negative ints and floats is accepted. -/
theorem monthly_validator_any_match_example :
    AnnualBooks.verify_yearly_data mixedMonthly = (true, []) :=
  monthly_validator_any_match mixedMonthly (by decide) (by decide)

unseal Rat.add Rat.mul Rat.inv Rat.sub in
/-- C3: the monthly tick-interval selector maps m to 1 on m ≤ 10, 5 on
10 < m ≤ 50, 10 on 50 < m ≤ 100, 50 on 100 < m ≤ 500 and 100 beyond; in
particular it maps 10 to 1 and 10.0001 to 5. -/
theorem monthly_tick_interval_thresholds (m : ℚ) (h0 : 0 ≤ m) :
    (m ≤ 10 → AnnualBooks.calculate_ytick_interval m = 1) ∧
    (10 < m → m ≤ 50 → AnnualBooks.calculate_ytick_interval m = 5) ∧
    (50 < m → m ≤ 100 → AnnualBooks.calculate_ytick_interval m = 10) ∧
    (100 < m → m ≤ 500 → AnnualBooks.calculate_ytick_interval m = 50) ∧
    (500 < m → AnnualBooks.calculate_ytick_interval m = 100) ∧
    AnnualBooks.calculate_ytick_interval 10 = 1 ∧
    AnnualBooks.calculate_ytick_interval (100001/10000) = 5 := by
  refine ⟨?_, ?_, ?_, ?_, ?_, by decide, by decide⟩ <;>
    · intros
      simp only [AnnualBooks.calculate_ytick_interval]
      split_ifs <;> first | rfl | (exfalso; linarith)

unseal Rat.add Rat.mul Rat.inv Rat.sub in
/-- C3 (witness): the thresholds instantiated at the boundary value 10. -/
theorem monthly_tick_interval_thresholds_at_10 :
    ((10 : ℚ) ≤ 10 → AnnualBooks.calculate_ytick_interval 10 = 1) ∧
    ((10 : ℚ) < 10 → (10 : ℚ) ≤ 50 →
      AnnualBooks.calculate_ytick_interval 10 = 5) ∧
    ((50 : ℚ) < 10 → (10 : ℚ) ≤ 100 →
      AnnualBooks.calculate_ytick_interval 10 = 10) ∧
    ((100 : ℚ) < 10 → (10 : ℚ) ≤ 500 →
      AnnualBooks.calculate_ytick_interval 10 = 50) ∧
    ((500 : ℚ) < 10 → AnnualBooks.calculate_ytick_interval 10 = 100) ∧
    AnnualBooks.calculate_ytick_interval 10 = 1 ∧
    AnnualBooks.calculate_ytick_interval (100001/10000) = 5 :=
  monthly_tick_interval_thresholds 10 (by decide)

unseal Rat.add Rat.mul Rat.inv Rat.sub in
/-- C4: the weekly tick-interval selector maps m to 1 on m ≤ 5, 2 on
5 < m ≤ 10, 3 on 10 < m ≤ 15, 4 on 15 < m ≤ 20, 5 on 20 < m ≤ 24 and 8
beyond; in particular it maps 24 to 5 and 25 to 8. -/
theorem weekly_tick_interval_thresholds (m : ℚ) (h0 : 0 ≤ m) :
    (m ≤ 5 → WeeklyHours.calculate_ytick_interval m = 1) ∧
    (5 < m → m ≤ 10 → WeeklyHours.calculate_ytick_interval m = 2) ∧
    (10 < m → m ≤ 15 → WeeklyHours.calculate_ytick_interval m = 3) ∧
    (15 < m → m ≤ 20 → WeeklyHours.calculate_ytick_interval m = 4) ∧
    (20 < m → m ≤ 24 → WeeklyHours.calculate_ytick_interval m = 5) ∧
    (24 < m → WeeklyHours.calculate_ytick_interval m = 8) ∧
    WeeklyHours.calculate_ytick_interval 24 = 5 ∧
    WeeklyHours.calculate_ytick_interval 25 = 8 := by
  refine ⟨?_, ?_, ?_, ?_, ?_, ?_, by decide, by decide⟩ <;>
    · intros
      simp only [WeeklyHours.calculate_ytick_interval]
      split_ifs <;> first | rfl | (exfalso; linarith)

unseal Rat.add Rat.mul Rat.inv Rat.sub in
/-- C4 (witness): the thresholds instantiated at the boundary value 24. -/
theorem weekly_tick_interval_thresholds_at_24 :
    ((24 : ℚ) ≤ 5 → WeeklyHours.calculate_ytick_interval 24 = 1) ∧
    ((5 : ℚ) < 24 → (24 : ℚ) ≤ 10 →
      WeeklyHours.calculate_ytick_interval 24 = 2) ∧
    ((10 : ℚ) < 24 → (24 : ℚ) ≤ 15 →
      WeeklyHours.calculate_ytick_interval 24 = 3) ∧
    ((15 : ℚ) < 24 → (24 : ℚ) ≤ 20 →
      WeeklyHours.calculate_ytick_interval 24 = 4) ∧
    ((20 : ℚ) < 24 → (24 : ℚ) ≤ 24 →
      WeeklyHours.calculate_ytick_interval 24 = 5) ∧
    ((24 : ℚ) < 24 → WeeklyHours.calculate_ytick_interval 24 = 8) ∧
    WeeklyHours.calculate_ytick_interval 24 = 5 ∧
    WeeklyHours.calculate_ytick_interval 25 = 8 :=
  weekly_tick_interval_thresholds 24 (by decide)

/-- C5: any list whose length is not 12 is rejected by the monthly
validator, which also emits the shape diagnostic, whatever the list
holds. -/
theorem monthly_validator_rejects_wrong_length (l : List PyVal)
    (h : l.length ≠ 12) :
    AnnualBooks.verify_yearly_data l =
      (false, [AnnualBooks.monthlyShapeMsg]) := by
  simp [AnnualBooks.verify_yearly_data, h]

/-- C5 (witness): the empty list is rejected with the diagnostic. -/
theorem monthly_validator_rejects_empty :
    AnnualBooks.verify_yearly_data [] =
      (false, [AnnualBooks.monthlyShapeMsg]) :=
  monthly_validator_rejects_wrong_length [] (by decide)

unseal Rat.add Rat.mul Rat.inv Rat.sub in
/-- C6: the weekly validator applied to `[0.0, 1, 2, 3, 4, 5, 6]` returns
`False`: the lower bound of the per-element range is exclusive, so the
float `0.0` fails the check (while any strictly positive in-range float
passes it), and the remaining ints fail the `isinstance(·, float)` test. -/
theorem weekly_validator_rejects_zero_float :
    WeeklyHours.verify_weekly_data
      [.float 0, .int 1, .int 2, .int 3, .int 4, .int 5, .int 6] =
      (false, []) ∧
    WeeklyHours.weeklyElemOk (.float 0) = false ∧
    WeeklyHours.weeklyElemOk (.float (1/2)) = true := by
  decide

/-- C8: the length-validation branch of `get_selected_text` is
unreachable: the chained guard `0 >= len(sel_text) > 600` is false for
every string, so every first input — empty or longer than 600 characters
included — is returned unchanged, with no reprompt. -/
theorem selected_text_guard_unreachable (s : String) (rest : List String) :
    TextToImage.sel_text_len_invalid s = false ∧
    TextToImage.get_selected_text (s :: rest) = some s := by
  have h : TextToImage.sel_text_len_invalid s = false := by
    simp [TextToImage.sel_text_len_invalid]
    omega
  exact ⟨h, by simp [TextToImage.get_selected_text, h]⟩

/-- C9: every element of a list returned by `get_yearly_data` is a
non-negative integer — each token is coerced with `abs(int(float(token)))`
— and hence passes the validator's per-element check. -/
theorem yearly_data_elements_non_negative (line : String) (ys : List ℤ)
    (h : AnnualBooks.get_yearly_data line = some ys) :
    ∀ y ∈ ys, 0 ≤ y ∧ AnnualBooks.monthlyElemOk (PyVal.int y) = true := by
  obtain ⟨qs, -, rfl⟩ := Option.map_eq_some'.mp h
  intro y hy
  obtain ⟨q, -, rfl⟩ := List.mem_map.mp hy
  exact ⟨abs_nonneg _, by simp [AnnualBooks.monthlyElemOk, abs_nonneg]⟩

unseal Rat.add Rat.mul Rat.inv Rat.sub in
/-- C9 (witness): the input line "3 -4 2.7 -0.5" parses to `[3, 4, 2, 0]`
— the token -4 silently replaced by its absolute value 4 — and the element
4 is non-negative and passes the per-element check. -/
theorem yearly_data_elements_non_negative_example :
    0 ≤ (4 : ℤ) ∧ AnnualBooks.monthlyElemOk (PyVal.int 4) = true :=
  yearly_data_elements_non_negative "3 -4 2.7 -0.5" [3, 4, 2, 0] (by decide)
    4 (by decide)

/-- C10: the weekly validator's per-element check requires a Python
`float` via `isinstance`, so a 7-element all-`int` list is rejected
whatever its values. -/
theorem weekly_validator_rejects_all_ints (l : List ℤ)
    (h7 : l.length = 7) :
    WeeklyHours.verify_weekly_data (l.map PyVal.int) = (false, []) := by
  have hlen : (l.map PyVal.int).length = 7 := by simpa using h7
  simp [WeeklyHours.verify_weekly_data, hlen, List.any_map,
    Function.comp, WeeklyHours.weeklyElemOk]

/-- C10 (witness): `[1, 2, 3, 4, 5, 6, 7]` — every value strictly between
0 and 24 — is rejected by the weekly validator. -/
theorem weekly_validator_rejects_int_example :
    WeeklyHours.verify_weekly_data
      ([1, 2, 3, 4, 5, 6, 7].map PyVal.int) = (false, []) :=
  weekly_validator_rejects_all_ints [1, 2, 3, 4, 5, 6, 7] (by decide)

set_option maxRecDepth 8192 in
unseal Rat.add Rat.mul Rat.inv Rat.sub in
/-- C7: `smooth_data` on xs = [1..12], the example ys, and 100 points,
for any interpolant through the 12 data points (the contract of
`interp1d(xs, ys, kind="cubic")`): it returns exactly 100 x-values, the
first is 1 and the last is 12, consecutive x-values differ by the constant
step 1/9, and at the indices 9k — where the x-value equals the original
position k+1 — the interpolated y-value equals the raw y-value exactly. -/
theorem smooth_data_hits_knots (f : ℚ → ℚ)
    (hf : ∀ k : Fin 12,
      f (smooth_xs.getD (k : ℕ) 0) = smooth_ys.getD (k : ℕ) 0) :
    ∃ xS yS, AnnualBooks.smooth_data f smooth_xs 100 = some (xS, yS) ∧
      xS.length = 100 ∧ yS.length = 100 ∧
      xS.head? = some 1 ∧ xS.getLast? = some 12 ∧
      (∀ i : Fin 99, xS[(i : ℕ) + 1]? =
        (xS[(i : ℕ)]?).map (fun x => x + 1/9)) ∧
      (∀ k : Fin 12, xS[9 * (k : ℕ)]? = some (smooth_xs.getD (k : ℕ) 0) ∧
        yS[9 * (k : ℕ)]? = some (smooth_ys.getD (k : ℕ) 0)) := by
  have hmn : pyMinQ smooth_xs = some 1 := by decide
  have hmx : pyMaxQ smooth_xs = some 12 := by decide
  have hlen : (AnnualBooks.linspace 1 12 100).length = 100 := by decide
  have hx : ∀ k : Fin 12, (AnnualBooks.linspace 1 12 100)[9 * (k : ℕ)]? =
      some (smooth_xs.getD (k : ℕ) 0) := by decide
  refine ⟨AnnualBooks.linspace 1 12 100,
    (AnnualBooks.linspace 1 12 100).map f, ?_, hlen,
    by rw [List.length_map]; exact hlen, by decide, by decide, by decide, ?_⟩
  · unfold AnnualBooks.smooth_data
    rw [hmn, hmx]
  · intro k
    refine ⟨hx k, ?_⟩
    rw [List.getElem?_map, hx k]
    simp only [Option.map_some']
    exact congrArg some (hf k)

set_option maxRecDepth 8192 in
unseal Rat.add Rat.mul Rat.inv Rat.sub in
/-- C7 (witness): the conclusion instantiated with the concrete table
interpolant through the 12 example points. -/
theorem smooth_data_hits_knots_example :
    ∃ xS yS,
      AnnualBooks.smooth_data interpTable smooth_xs 100 = some (xS, yS) ∧
      xS.length = 100 ∧ yS.length = 100 ∧
      xS.head? = some 1 ∧ xS.getLast? = some 12 ∧
      (∀ i : Fin 99, xS[(i : ℕ) + 1]? =
        (xS[(i : ℕ)]?).map (fun x => x + 1/9)) ∧
      (∀ k : Fin 12, xS[9 * (k : ℕ)]? = some (smooth_xs.getD (k : ℕ) 0) ∧
        yS[9 * (k : ℕ)]? = some (smooth_ys.getD (k : ℕ) 0)) :=
  smooth_data_hits_knots interpTable (by decide)
